import Mathlib

/-!
Verification development for the TaskBuddy dependency-resolution container
(`core/dependency_container.py`) and its collaborators
(`data/csv_task_repository.py`, `business/task_manager_service.py`,
`business/interfaces/ITaskRepository.py`).

The Python runtime is shallowly embedded:

* a class is a `ClassInfo`: abstractness flag (`inspect.isabstract`), the
  `__init__` parameter list as reported by `inspect.signature` (including
  `self`), the set of concretely implemented operations, the set of
  operations declared abstract by the contract, and the `__init__` body as a
  function from bound arguments to instance fields (or a raised error);
* exceptions are `PyErr` values carrying their class (`ValueError`,
  `TypeError`, ...), since the container's `except ValueError` dispatches on
  the class;
* object identity is an allocation counter threaded through resolution: every
  successful instantiation returns `Value.vobj cls oid fields` with a fresh
  `oid` and bumps the counter.  Warning-level log lines emitted on the
  successful path are accumulated alongside the counter;
* `resolve` recurses through constructor annotations; Lean requires totality,
  so the recursion carries fuel and a distinguished `Res.fuelOut` outcome
  marks exhaustion.  Genuine results of the Python function are exactly the
  `Res.ok` / `Res.err` outcomes, which are stable once enough fuel is given.
-/

namespace TaskBuddy

/-- Identifier of a Python class (its name). -/
abbrev TypeId := String

/-- Class of a raised Python exception; the container catches `ValueError`
specifically, so the embedding tracks the exception class. -/
inductive ErrClass where
  | valueError
  | typeError
  | notImplementedError
  | fileNotFoundError
  | keyError
  | otherError
deriving DecidableEq, Repr

/-- A raised Python exception: its class and its message. -/
structure PyErr where
  cls : ErrClass
  msg : String
deriving DecidableEq, Repr

/-- Kinds of Python callable parameters, as reported by
`inspect.Parameter.kind`. -/
inductive ParamKind where
  | positionalOnly
  | positionalOrKeyword
  | keywordOnly
  | varPositional
  | varKeyword
deriving DecidableEq, Repr

/-- Python runtime values relevant to the wiring scenario: `None`, strings,
and constructed objects.  An object records its class, its allocation
identity and its instance fields. -/
inductive Value where
  | vnone : Value
  | vstr : String → Value
  | vobj : TypeId → Nat → List (String × Value) → Value

/-- One `inspect.Parameter` of a constructor signature: name, kind, optional
type annotation, optional default value (`inspect.Parameter.empty` is
`none`). -/
structure Param where
  name : String
  kind : ParamKind
  annotation : Option TypeId
  default : Option Value

/-- Description of a Python class as the container observes it. `params` is
the full `inspect.signature(cls.__init__).parameters` list, `self`
included.  `init` is the `__init__` body: it receives the keyword-argument
binding built by `resolve` and returns the instance fields, or raises. -/
structure ClassInfo where
  isAbstract : Bool
  params : List Param
  methods : List String
  declaredOps : List String
  init : List (String × Value) → Except PyErr (List (String × Value))

/-- The ambient Python environment: the class table, the nominal
`issubclass` relation, and dynamic import of a dotted locator string to a
class. -/
structure PyEnv where
  classes : TypeId → ClassInfo
  sub : TypeId → TypeId → Bool
  load : String → Option TypeId

/-- The container state `self._registrations`: a contract-to-concrete map
with insert-overwrites semantics, realised as an association list read
through `List.lookup` (first match wins, so a fresh entry shadows any older
one for the same contract). -/
abbrev Registrations := List (TypeId × TypeId)

/-- Runtime state threaded through resolution: the allocation counter that
hands out object identities, and the warning-level log lines emitted so
far. -/
structure RState where
  ctr : Nat
  warnings : List String
deriving DecidableEq, Repr

/-- Outcome of a fuelled computation: a Python return value, a raised Python
exception, or fuel exhaustion (the embedding marker for unbounded
recursion). -/
inductive Res (α : Type) where
  | ok : α → Res α
  | err : PyErr → Res α
  | fuelOut : Res α
deriving DecidableEq, Repr

/-- Does a registration-conformance check hold structurally: does type `t`
implement every operation the contract `c` declares?  (This predicate is what
the specification calls structural satisfaction; `register` itself checks the
nominal `issubclass` relation instead.) -/
def structurallySatisfies (env : PyEnv) (t c : TypeId) : Bool :=
  ((env.classes c).declaredOps).all (fun m => (env.classes t).methods.contains m)

/-- Embedding of `DependencyContainer.register`: dynamically load the dotted
locator, check `issubclass(concrete, abstraction)`, and on success store the
mapping (overwriting any prior entry for the contract).  Load failure and
conformance failure both raise `ValueError` at registration time. -/
def register (env : PyEnv) (regs : Registrations) (abstraction : TypeId)
    (locator : String) : Except PyErr Registrations :=
  match env.load locator with
  | none =>
      .error ⟨.valueError,
        "Failed to load concrete implementation " ++ locator ++
          ". Please check the path."⟩
  | some concrete =>
      if env.sub concrete abstraction then
        .ok ((abstraction, concrete) :: regs)
      else
        .error ⟨.valueError,
          "Concrete implementation " ++ concrete ++
            " does not implement abstraction " ++ abstraction ++ "."⟩

/-- Warning line logged when an optional dependency falls back to its
default (`logger.warning` in `resolve`). -/
def warnMsg (pname cls : String) : String :=
  "Optional dependency " ++ pname ++ " for " ++ cls ++
    " could not be resolved, using default value."

/-- Branch of `resolve`'s constructor loop for a parameter that is not
recursively resolved: a parameter with a default value uses the default,
and one without fails resolution immediately (`Missing type hint or default
value`). -/
def defaultOrMissing (cls : TypeId) (p : Param) (st : RState) :
    Res (Value × RState) :=
  match p.default with
  | some d => .ok (d, st)
  | none =>
      .err ⟨.valueError,
        "Cannot resolve dependency " ++ p.name ++ " for " ++ cls ++
          ": Missing type hint or default value."⟩

/-- Per-parameter step of `resolve`'s constructor loop, parameterised by the
recursive resolver `rec`.  Mirrors the source exactly: only a
positional-or-keyword parameter with an annotation is recursively resolved;
a `ValueError` from that recursion falls back to the declared default (with
a warning) or is re-raised naming the parameter and the class; any other
exception propagates unchanged; an unannotated (or non-injectable)
parameter uses its default, and without one resolution fails. -/
def resolveOne (rec : TypeId → RState → Res (Value × RState))
    (cls : TypeId) (p : Param) (st : RState) : Res (Value × RState) :=
  match p.annotation with
  | some a =>
      if p.kind = .positionalOrKeyword then
        match rec a st with
        | .ok (v, st1) => .ok (v, st1)
        | .fuelOut => .fuelOut
        | .err e =>
            if e.cls = .valueError then
              match p.default with
              | none =>
                  .err ⟨.valueError,
                    "Cannot resolve dependency " ++ p.name ++ " for " ++
                      cls ++ ": " ++ e.msg⟩
              | some d =>
                  .ok (d, ⟨st.ctr, st.warnings ++ [warnMsg p.name cls]⟩)
            else
              .err e
      else defaultOrMissing cls p st
  | none => defaultOrMissing cls p st

/-- Constructor loop of `resolve`: walk the signature in declared order,
skipping `self`, and build the keyword-argument binding. -/
def resolveParams (rec : TypeId → RState → Res (Value × RState))
    (cls : TypeId) : List Param → RState → Res (List (String × Value) × RState)
  | [], st => .ok ([], st)
  | p :: ps, st =>
      if p.name = "self" then
        resolveParams rec cls ps st
      else
        match resolveOne rec cls p st with
        | .fuelOut => .fuelOut
        | .err e => .err e
        | .ok (v, st1) =>
            match resolveParams rec cls ps st1 with
            | .fuelOut => .fuelOut
            | .err e => .err e
            | .ok (deps, st2) => .ok ((p.name, v) :: deps, st2)

/-- Embedding of `DependencyContainer.resolve`.  Look the abstraction up in
the registration map, defaulting to the abstraction itself; fail with
`ValueError` if the target is still abstract; otherwise resolve the
constructor parameters and instantiate (`concrete_class(**dependencies)`),
which allocates a fresh object identity and runs the `__init__` body.  Fuel
bounds the recursion depth. -/
def resolve (env : PyEnv) (regs : Registrations) :
    Nat → TypeId → RState → Res (Value × RState)
  | 0, _, _ => .fuelOut
  | fuel + 1, abstraction, st =>
      let concrete := ((regs.lookup abstraction).getD abstraction)
      if (env.classes concrete).isAbstract then
        .err ⟨.valueError,
          "No concrete implementation registered for abstraction: " ++
            abstraction⟩
      else
        match resolveParams (resolve env regs fuel) concrete
            (env.classes concrete).params st with
        | .fuelOut => .fuelOut
        | .err e => .err e
        | .ok (deps, st1) =>
            match (env.classes concrete).init deps with
            | .error e => .err e
            | .ok fields =>
                .ok (.vobj concrete st1.ctr fields,
                  ⟨st1.ctr + 1, st1.warnings⟩)

/-! ## The concrete TaskBuddy world

The classes wired by `main.py`: the contract `ITaskRepository`, the adapter
`CsvTaskRepository`, the service `TaskManagerService`, and the builtin `str`
(the annotation of `CsvTaskRepository.__init__`'s `file_path` parameter,
which `resolve` also tries to resolve). -/

/-- Python truthiness for the values in play (`if file_path:` in
`CsvTaskRepository.__init__`): `None` and the empty string are falsy. -/
def pyTruthy : Value → Bool
  | .vnone => false
  | .vstr s => !s.isEmpty
  | .vobj _ _ _ => true

/-- Project root directory computed by `CsvTaskRepository.__init__` (two
levels up from `data/`); the absolute prefix is abstracted to the project
directory name. -/
def projectRoot : String := "taskbuddy_project"

/-- Default CSV path `os.path.join(project_root, "data", "csv",
"sample_data.csv")` used when no `file_path` is supplied. -/
def defaultCsvPath : String :=
  String.intercalate "/" [projectRoot, "data", "csv", "sample_data.csv"]

/-- The five operations `ITaskRepository` declares abstract. -/
def repositoryOps : List String :=
  ["get_all_tasks", "add_task", "get_task_by_id", "update_task",
    "delete_task"]

/-- Nominal `issubclass` relation of the TaskBuddy classes:
`CsvTaskRepository` subclasses `ITaskRepository`, and every class subclasses
itself. -/
def taskSub (t u : TypeId) : Bool :=
  t == u || (t == "CsvTaskRepository" && u == "ITaskRepository")

/-- The `self` parameter of an ordinary `__init__`
(positional-or-keyword, no annotation, no default). -/
def selfParam : Param := ⟨"self", .positionalOrKeyword, none, none⟩

/-- Signature of `object.__init__` as `inspect.signature` reports it
(`(self, /, *args, **kwargs)`); this is what `resolve` sees for builtins
such as `str` that do not define their own `__init__`. -/
def objectInitParams : List Param :=
  [⟨"self", .positionalOnly, none, none⟩,
    ⟨"args", .varPositional, none, none⟩,
    ⟨"kwargs", .varKeyword, none, none⟩]

/-- Class table of the TaskBuddy world.  `ITaskRepository` is abstract with
the five repository operations declared; `CsvTaskRepository.__init__` takes
an optional annotated `file_path` defaulting to `None` and falls back to the
sample-data path when the argument is falsy; `TaskManagerService.__init__`
takes a required `task_repository : ITaskRepository` and type-checks it with
`isinstance`; any other name behaves like a plain `object` subclass. -/
def taskClasses : TypeId → ClassInfo
  | "ITaskRepository" =>
      { isAbstract := true
        params := [selfParam]
        methods := []
        declaredOps := repositoryOps
        init := fun _ => .error ⟨.typeError, "abstract class"⟩ }
  | "CsvTaskRepository" =>
      { isAbstract := false
        params := [selfParam,
          ⟨"file_path", .positionalOrKeyword, some "str", some .vnone⟩]
        methods := repositoryOps
        declaredOps := []
        init := fun args =>
          let fp := (args.lookup "file_path").getD .vnone
          .ok [("file_path",
            if pyTruthy fp then fp else .vstr defaultCsvPath)] }
  | "TaskManagerService" =>
      { isAbstract := false
        params := [selfParam,
          ⟨"task_repository", .positionalOrKeyword, some "ITaskRepository",
            none⟩]
        methods := ["get_all_tasks", "get_task_by_id", "add_new_task",
          "mark_task_complete", "delete_task_by_id"]
        declaredOps := []
        init := fun args =>
          match args.lookup "task_repository" with
          | some (.vobj c i fs) =>
              if taskSub c "ITaskRepository" then
                .ok [("_task_repository", .vobj c i fs)]
              else
                .error ⟨.typeError,
                  "task_repository must be an instance of ITaskRepository."⟩
          | _ =>
              .error ⟨.typeError,
                "task_repository must be an instance of ITaskRepository."⟩ }
  | _ =>
      { isAbstract := false
        params := objectInitParams
        methods := []
        declaredOps := []
        init := fun _ => .ok [] }

/-- Dynamic import used by `configure_dependencies`: only the CSV adapter's
dotted path is importable in this world. -/
def taskLoad : String → Option TypeId
  | "data.csv_task_repository.CsvTaskRepository" => some "CsvTaskRepository"
  | _ => none

/-- The TaskBuddy Python environment. -/
def taskEnv : PyEnv := ⟨taskClasses, taskSub, taskLoad⟩

/-- Registration map produced by `configure_dependencies`. -/
def taskRegs : Registrations := [("ITaskRepository", "CsvTaskRepository")]

/-- The fully wired service instance: a `TaskManagerService` whose
`_task_repository` field is a fresh `CsvTaskRepository` whose `file_path` is
the default sample-data path. -/
def wiredService : Value :=
  .vobj "TaskManagerService" 1
    [("_task_repository",
      .vobj "CsvTaskRepository" 0 [("file_path", .vstr defaultCsvPath)])]

/-! ## Auxiliary worlds for counterexamples and witnesses -/

/-- Description of a plain `object` subclass with no `__init__` of its own:
`inspect.signature` reports `object.__init__`, and its `*args` parameter
(no annotation, no default) makes the container refuse to resolve it. -/
def plainObjectClass : ClassInfo :=
  { isAbstract := false
    params := objectInitParams
    methods := []
    declaredOps := []
    init := fun _ => .ok [] }

/-- Class table witnessing registration of a still-abstract subclass:
contract `IFoo` declares one operation `m`; `Bad` subclasses `IFoo` without
implementing `m` (in Python: `class Bad(IFoo): pass`), so `issubclass(Bad,
IFoo)` holds while `Bad` is itself still abstract and implements nothing. -/
def badClasses (t : TypeId) : ClassInfo :=
  if t = "IFoo" then
    { isAbstract := true
      params := [selfParam]
      methods := []
      declaredOps := ["m"]
      init := fun _ => .error ⟨.typeError, "abstract class"⟩ }
  else if t = "Bad" then
    { isAbstract := true
      params := [selfParam]
      methods := []
      declaredOps := ["m"]
      init := fun _ => .error ⟨.typeError, "abstract class"⟩ }
  else plainObjectClass

/-- Environment for the abstract-subclass registration scenario. -/
def badEnv : PyEnv :=
  ⟨badClasses,
    fun t u => t == u || (t == "Bad" && u == "IFoo"),
    fun l => if l = "mod.Bad" then some "Bad" else none⟩

/-- Class table witnessing constructor failure inside a dependency: `Boom`
has a no-dependency constructor whose body raises `ValueError`; `Host`
depends on `Boom` through an annotated parameter with a default;
`HostNoDefault` depends on `Boom` through an annotated parameter with no
default. -/
def boomClasses (t : TypeId) : ClassInfo :=
  if t = "Boom" then
    { isAbstract := false
      params := [selfParam]
      methods := []
      declaredOps := []
      init := fun _ => .error ⟨.valueError, "boom from constructor"⟩ }
  else if t = "Host" then
    { isAbstract := false
      params := [selfParam,
        ⟨"dep", .positionalOrKeyword, some "Boom", some (.vstr "fallback")⟩]
      methods := []
      declaredOps := []
      init := fun args => .ok args }
  else if t = "HostNoDefault" then
    { isAbstract := false
      params := [selfParam,
        ⟨"dep", .positionalOrKeyword, some "Boom", none⟩]
      methods := []
      declaredOps := []
      init := fun args => .ok args }
  else plainObjectClass

/-- Environment for the dependency-constructor-failure scenario. -/
def boomEnv : PyEnv := ⟨boomClasses, fun t u => t == u, fun _ => none⟩

/-- Class table with a self-cycle: `Loop.__init__` requires a `Loop`. -/
def loopClasses (t : TypeId) : ClassInfo :=
  if t = "Loop" then
    { isAbstract := false
      params := [selfParam,
        ⟨"x", .positionalOrKeyword, some "Loop", none⟩]
      methods := []
      declaredOps := []
      init := fun args => .ok args }
  else plainObjectClass

/-- Environment whose dependency graph has a cycle at `Loop`. -/
def loopEnv : PyEnv := ⟨loopClasses, fun t u => t == u, fun _ => none⟩

/-- Class table with an acyclic two-node dependency chain `A → B`. -/
def chainClasses (t : TypeId) : ClassInfo :=
  if t = "A" then
    { isAbstract := false
      params := [selfParam, ⟨"b", .positionalOrKeyword, some "B", none⟩]
      methods := []
      declaredOps := []
      init := fun args => .ok args }
  else if t = "B" then
    { isAbstract := false
      params := [selfParam]
      methods := []
      declaredOps := []
      init := fun _ => .ok [] }
  else plainObjectClass

/-- Environment with the acyclic chain `A → B`. -/
def chainEnv : PyEnv := ⟨chainClasses, fun t u => t == u, fun _ => none⟩

/-- Rank function exhibiting the acyclicity of `chainEnv`'s dependency
graph: every dependency edge strictly decreases the rank. -/
def chainRank (t : TypeId) : Nat := if t = "A" then 1 else 0

/-! ## Model of the CSV adapter's operations

`CsvTaskRepository`'s five repository operations
(`data/csv_task_repository.py`).  The task record and its status
enumeration live in `business/task.py`, which is not among the provided
sources; both are modelled from the spec and the repository's tests. -/

/-- Modelled from the spec: the task status enumeration of
`business/task.py` (not among the provided sources); the members exercised
by the repository tests are `PENDING`, `COMPLETE` and `OVERDUE`. -/
inductive TaskStatus where
  | pending
  | complete
  | overdue
deriving DecidableEq, Repr

/-- Modelled from the spec: the task record of `business/task.py` (not
among the provided sources) — "immutable identifier, mutable title/status".
The identifier is kept as its canonical string form. -/
structure Task where
  id : String
  title : String
  status : TaskStatus
deriving DecidableEq, Repr

/-- Lookup of a status member by name (`TaskStatus[name]`); `none` models
the `KeyError` on an unknown member. -/
def TaskStatus.fromName : String → Option TaskStatus
  | "PENDING" => some .pending
  | "COMPLETE" => some .complete
  | "OVERDUE" => some .overdue
  | _ => none

/-- Acceptance of a task-identifier string by `uuid.UUID`: thirty-two
hexadecimal digits once hyphens are removed (the urn/brace forms do not
occur in this data set and are elided). -/
def isValidUUID (s : String) : Bool :=
  let t := (s.toList.filter (fun c => c ≠ '-'))
  t.length == 32 && t.all (fun c => c.isDigit ||
    "abcdefABCDEF".toList.contains c)

/-- Contents of the CSV file as `csv.DictReader` observes them: the file
may be absent, may have a blank first line, or is a header row plus data
rows (each row an association of field name to cell value; a missing
association models the `None` a short row produces). -/
inductive CsvFile where
  | missing
  | blankFirstLine
  | table (fieldnames : List String) (rows : List (List (String × String)))

/-- The header fields `get_all_tasks` requires. -/
def requiredFields : List String := ["id", "title", "status"]

/-- Per-row parsing of `get_all_tasks`: require the three fields present
and non-empty after stripping, parse the identifier as a UUID and the
status by enumeration-member name; any failure skips the row (the source
logs and continues). -/
def parseRow (row : List (String × String)) : Option Task :=
  match row.lookup "id", row.lookup "title", row.lookup "status" with
  | some i, some ti, some st =>
      let i := i.trim
      let ti := ti.trim
      let st := st.trim
      if i.isEmpty || ti.isEmpty || st.isEmpty then none
      else
        match TaskStatus.fromName st.toUpper with
        | none => none
        | some status =>
            if isValidUUID i then some ⟨i, ti, status⟩ else none
  | _, _, _ => none

namespace CsvTaskRepository

/-- Embedding of `CsvTaskRepository.get_all_tasks`: raise
`FileNotFoundError` when the file is absent; return the empty list when the
file starts blank, has no header, or lacks a required header; otherwise
parse the rows, skipping malformed ones. -/
def get_all_tasks (file_path : String) (file : CsvFile) :
    Except PyErr (List Task) :=
  match file with
  | .missing =>
      .error ⟨.fileNotFoundError, "CSV file not found at: " ++ file_path⟩
  | .blankFirstLine => .ok []
  | .table fieldnames rows =>
      if fieldnames.isEmpty then .ok []
      else if !(requiredFields.all (fun f => fieldnames.contains f)) then
        .ok []
      else .ok (rows.filterMap parseRow)

/-- Embedding of `CsvTaskRepository.get_task_by_id`: reuse
`get_all_tasks`, then linearly search; raise `ValueError` when no task
matches. -/
def get_task_by_id (file_path : String) (file : CsvFile) (task_id : String) :
    Except PyErr Task :=
  match get_all_tasks file_path file with
  | .error e => .error e
  | .ok tasks =>
      match tasks.find? (fun t => t.id == task_id) with
      | some t => .ok t
      | none =>
          .error ⟨.valueError,
            "Task with ID " ++ task_id ++ " not found."⟩

/-- Embedding of `CsvTaskRepository.add_task`: unconditionally raises
`NotImplementedError`. -/
def add_task (_task : Task) : Except PyErr Unit :=
  .error ⟨.notImplementedError,
    "add_task is not implemented for CsvTaskRepository yet."⟩

/-- Embedding of `CsvTaskRepository.update_task`: unconditionally raises
`NotImplementedError`. -/
def update_task (_task : Task) : Except PyErr Unit :=
  .error ⟨.notImplementedError,
    "update_task is not implemented for CsvTaskRepository yet."⟩

/-- Embedding of `CsvTaskRepository.delete_task`: unconditionally raises
`NotImplementedError`. -/
def delete_task (_task_id : String) : Except PyErr Unit :=
  .error ⟨.notImplementedError,
    "delete_task is not implemented for CsvTaskRepository yet."⟩

end CsvTaskRepository

/-- Class table with one contract `IRepo` and two loadable concrete
implementations `Impl1`, `Impl2`, plus an unrelated loadable class `Free`
that does not subclass the contract; used for re-registration and
conformance-failure scenarios. -/
def twoImplClasses (t : TypeId) : ClassInfo :=
  if t = "IRepo" then
    { isAbstract := true
      params := [selfParam]
      methods := []
      declaredOps := ["op"]
      init := fun _ => .error ⟨.typeError, "abstract class"⟩ }
  else if t = "Impl1" ∨ t = "Impl2" then
    { isAbstract := false
      params := [selfParam]
      methods := ["op"]
      declaredOps := []
      init := fun _ => .ok [] }
  else if t = "Free" then
    { isAbstract := false
      params := [selfParam]
      methods := []
      declaredOps := []
      init := fun _ => .ok [] }
  else plainObjectClass

/-- Environment with the contract `IRepo` and two implementations. -/
def twoImplEnv : PyEnv :=
  ⟨twoImplClasses,
    fun t u => t == u ||
      ((t == "Impl1" || t == "Impl2") && u == "IRepo"),
    fun l =>
      if l = "m.Impl1" then some "Impl1"
      else if l = "m.Impl2" then some "Impl2"
      else if l = "m.Free" then some "Free"
      else none⟩

end TaskBuddy

namespace TaskBuddy

/-- Claim C1 (confirmed).  End-to-end wiring: on a fresh container,
`register(ITaskRepository, "data.csv_task_repository.CsvTaskRepository")`
succeeds and stores the mapping; then `resolve(TaskManagerService)` returns
a `TaskManagerService` instance whose internal repository field is a
`CsvTaskRepository` whose `file_path` is the default sample-data path.  The
resolution request names only `TaskManagerService`; `CsvTaskRepository`
enters the picture solely through the registration map.  (Along the way the
container tries to resolve the `str` annotation of `file_path`, fails with a
`ValueError`, and falls back to the declared default `None` with a logged
warning — exactly the source behaviour.) -/
theorem C1_end_to_end :
    register taskEnv [] "ITaskRepository"
        "data.csv_task_repository.CsvTaskRepository" = .ok taskRegs
    ∧ resolve taskEnv taskRegs 3 "TaskManagerService" ⟨0, []⟩ =
        .ok (wiredService,
          ⟨2, [warnMsg "file_path" "CsvTaskRepository"]⟩) :=
  ⟨rfl, rfl⟩

/-! ## Fuel monotonicity

Once resolution completes (returns or raises) with some amount of fuel, any
larger amount gives the same outcome; `Res.fuelOut` is purely an artefact
of the fuelled embedding. -/

theorem resolveOne_mono {rec rec' : TypeId → RState → Res (Value × RState)}
    (h : ∀ a st, rec a st ≠ .fuelOut → rec' a st = rec a st)
    {cls : TypeId} {p : Param} {st : RState}
    (hne : resolveOne rec cls p st ≠ .fuelOut) :
    resolveOne rec' cls p st = resolveOne rec cls p st := by
  cases hann : p.annotation with
  | none => simp [resolveOne, hann]
  | some a =>
      by_cases hk : p.kind = ParamKind.positionalOrKeyword
      · cases hr : rec a st with
        | fuelOut =>
            exact absurd (by simp [resolveOne, hann, hk, hr]) hne
        | ok x =>
            simp [resolveOne, hann, hk, h a st (by simp [hr]), hr]
        | err e =>
            simp [resolveOne, hann, hk, h a st (by simp [hr]), hr]
      · simp [resolveOne, hann, hk]

theorem resolveParams_mono {rec rec' : TypeId → RState → Res (Value × RState)}
    (h : ∀ a st, rec a st ≠ .fuelOut → rec' a st = rec a st)
    {cls : TypeId} :
    ∀ (ps : List Param) (st : RState),
      resolveParams rec cls ps st ≠ .fuelOut →
      resolveParams rec' cls ps st = resolveParams rec cls ps st := by
  intro ps
  induction ps with
  | nil => intro st _; rfl
  | cons p ps ih =>
      intro st hne
      by_cases hself : p.name = "self"
      · simp only [resolveParams, hself, if_true] at hne ⊢
        exact ih st hne
      · cases ho : resolveOne rec cls p st with
        | fuelOut =>
            exact absurd (by simp [resolveParams, hself, ho]) hne
        | err e =>
            have hone :=
              @resolveOne_mono rec rec' h cls p st (by simp [ho])
            simp [resolveParams, hself, hone, ho]
        | ok x =>
            obtain ⟨v, st1⟩ := x
            have hone :=
              @resolveOne_mono rec rec' h cls p st (by simp [ho])
            cases hps : resolveParams rec cls ps st1 with
            | fuelOut =>
                exact absurd (by simp [resolveParams, hself, ho, hps]) hne
            | err e =>
                simp [resolveParams, hself, hone, ho,
                  ih st1 (by simp [hps]), hps]
            | ok y =>
                simp [resolveParams, hself, hone, ho,
                  ih st1 (by simp [hps]), hps]

theorem resolve_mono (env : PyEnv) (regs : Registrations) :
    ∀ (n m : Nat) (t : TypeId) (st : RState), n ≤ m →
      resolve env regs n t st ≠ .fuelOut →
      resolve env regs m t st = resolve env regs n t st := by
  intro n
  induction n with
  | zero => intro m t st _ hne; exact absurd rfl hne
  | succ n ih =>
      intro m t st hle hne
      obtain ⟨m, rfl⟩ : ∃ m', m = m' + 1 := ⟨m - 1, by omega⟩
      have hrec : ∀ a st, resolve env regs n a st ≠ .fuelOut →
          resolve env regs m a st = resolve env regs n a st :=
        fun a st hh => ih m a st (by omega) hh
      by_cases hab :
          (env.classes ((regs.lookup t).getD t)).isAbstract = true
      · simp [resolve, hab]
      · have hps : resolveParams (resolve env regs n)
            ((regs.lookup t).getD t)
            (env.classes ((regs.lookup t).getD t)).params st ≠ .fuelOut := by
          intro hfo
          exact hne (by simp [resolve, hab, hfo])
        have hrw := resolveParams_mono hrec _ _ hps
        simp [resolve, hab, hrw]

/-! ## Allocation-counter lemmas

The counter never decreases along a successful resolution, and every
successful `resolve` returns a freshly allocated object of the mapped
class: its identity is the counter value reached after the dependencies,
and the final counter sits just above it. -/

theorem resolveOne_ctr_le {rec : TypeId → RState → Res (Value × RState)}
    (hrec : ∀ a st v st', rec a st = .ok (v, st') → st.ctr ≤ st'.ctr)
    {cls : TypeId} {p : Param} {st : RState} {v : Value} {st' : RState}
    (h : resolveOne rec cls p st = .ok (v, st')) : st.ctr ≤ st'.ctr := by
  cases hann : p.annotation with
  | none =>
      simp only [resolveOne, hann, defaultOrMissing] at h
      cases hd : p.default with
      | none => simp [hd] at h
      | some d =>
          simp [hd] at h
          obtain ⟨-, rfl⟩ := h
          exact Nat.le_refl _
  | some a =>
      simp only [resolveOne, hann] at h
      by_cases hk : p.kind = ParamKind.positionalOrKeyword
      · rw [if_pos hk] at h
        cases hr : rec a st with
        | fuelOut => simp [hr] at h
        | ok x =>
            obtain ⟨w, st1⟩ := x
            simp [hr] at h
            obtain ⟨-, rfl⟩ := h
            exact hrec a st w st1 hr
        | err e =>
            by_cases hve : e.cls = ErrClass.valueError
            · cases hd : p.default with
              | none => simp [hr, hve, hd] at h
              | some d =>
                  simp [hr, hve, hd] at h
                  obtain ⟨-, rfl⟩ := h
                  exact Nat.le_refl _
            · simp [hr, hve] at h
      · rw [if_neg hk] at h
        simp only [defaultOrMissing] at h
        cases hd : p.default with
        | none => simp [hd] at h
        | some d =>
            simp [hd] at h
            obtain ⟨-, rfl⟩ := h
            exact Nat.le_refl _

theorem resolveParams_ctr_le {rec : TypeId → RState → Res (Value × RState)}
    (hrec : ∀ a st v st', rec a st = .ok (v, st') → st.ctr ≤ st'.ctr)
    {cls : TypeId} :
    ∀ (ps : List Param) (st : RState) (deps : List (String × Value))
      (st' : RState),
      resolveParams rec cls ps st = .ok (deps, st') → st.ctr ≤ st'.ctr := by
  intro ps
  induction ps with
  | nil =>
      intro st deps st' h
      simp only [resolveParams] at h
      obtain ⟨-, rfl⟩ := by simpa using h
      exact Nat.le_refl _
  | cons p ps ih =>
      intro st deps st' h
      by_cases hself : p.name = "self"
      · rw [resolveParams, if_pos hself] at h
        exact ih st deps st' h
      · rw [resolveParams, if_neg hself] at h
        cases ho : resolveOne rec cls p st with
        | fuelOut => simp [ho] at h
        | err e => simp [ho] at h
        | ok x =>
            obtain ⟨v, st1⟩ := x
            cases hps : resolveParams rec cls ps st1 with
            | fuelOut => simp [ho, hps] at h
            | err e => simp [ho, hps] at h
            | ok y =>
                obtain ⟨deps2, st2⟩ := y
                simp [ho, hps] at h
                obtain ⟨-, rfl⟩ := h
                exact Nat.le_trans (resolveOne_ctr_le hrec ho)
                  (ih st1 deps2 st2 hps)

theorem resolve_ctr_le (env : PyEnv) (regs : Registrations) :
    ∀ (n : Nat) (t : TypeId) (st : RState) (v : Value) (st' : RState),
      resolve env regs n t st = .ok (v, st') → st.ctr ≤ st'.ctr := by
  intro n
  induction n with
  | zero => intro t st v st' h; simp [resolve] at h
  | succ n ih =>
      intro t st v st' h
      simp only [resolve] at h
      by_cases hab :
          (env.classes ((regs.lookup t).getD t)).isAbstract = true
      · rw [if_pos hab] at h; simp at h
      · rw [if_neg hab] at h
        cases hps : resolveParams (resolve env regs n)
            ((regs.lookup t).getD t)
            (env.classes ((regs.lookup t).getD t)).params st with
        | fuelOut => simp [hps] at h
        | err e => simp [hps] at h
        | ok x =>
            obtain ⟨deps, st1⟩ := x
            cases hinit :
                (env.classes ((regs.lookup t).getD t)).init deps with
            | error e => simp [hps, hinit] at h
            | ok fields =>
                simp [hps, hinit] at h
                obtain ⟨-, rfl⟩ := h
                have hle := resolveParams_ctr_le
                  (fun a st v st' hh => ih a st v st' hh) _ st deps st1 hps
                exact Nat.le_trans hle (Nat.le_succ _)

theorem resolve_ok_shape (env : PyEnv) (regs : Registrations)
    {n : Nat} {t : TypeId} {st : RState} {v : Value} {st' : RState}
    (h : resolve env regs n t st = .ok (v, st')) :
    ∃ oid fields, v = .vobj ((regs.lookup t).getD t) oid fields ∧
      st'.ctr = oid + 1 ∧ st.ctr ≤ oid := by
  cases n with
  | zero => simp [resolve] at h
  | succ n =>
      simp only [resolve] at h
      by_cases hab :
          (env.classes ((regs.lookup t).getD t)).isAbstract = true
      · rw [if_pos hab] at h; simp at h
      · rw [if_neg hab] at h
        cases hps : resolveParams (resolve env regs n)
            ((regs.lookup t).getD t)
            (env.classes ((regs.lookup t).getD t)).params st with
        | fuelOut => simp [hps] at h
        | err e => simp [hps] at h
        | ok x =>
            obtain ⟨deps, st1⟩ := x
            cases hinit :
                (env.classes ((regs.lookup t).getD t)).init deps with
            | error e => simp [hps, hinit] at h
            | ok fields =>
                simp [hps, hinit] at h
                obtain ⟨rfl, rfl⟩ := h
                refine ⟨st1.ctr, fields, rfl, rfl, ?_⟩
                exact resolveParams_ctr_le
                  (fun a st v st' hh =>
                    resolve_ctr_le env regs n a st v st' hh)
                  _ st deps st1 hps

/-! ## Termination helpers

Fuel exhaustion can only originate in the recursive calls on parameter
annotations; with a rank function that decreases along every dependency
edge, enough fuel exists for resolution to complete. -/

theorem resolveOne_ne_fuelOut {rec : TypeId → RState → Res (Value × RState)}
    {cls : TypeId} {p : Param} {st : RState}
    (h : ∀ a, p.annotation = some a →
      p.kind = ParamKind.positionalOrKeyword → rec a st ≠ .fuelOut) :
    resolveOne rec cls p st ≠ .fuelOut := by
  cases hann : p.annotation with
  | none =>
      simp only [resolveOne, hann, defaultOrMissing]
      cases p.default <;> simp
  | some a =>
      by_cases hk : p.kind = ParamKind.positionalOrKeyword
      · simp only [resolveOne, hann, if_pos hk]
        cases hr : rec a st with
        | fuelOut => exact absurd hr (h a hann hk)
        | ok x => simp
        | err e =>
            by_cases hve : e.cls = ErrClass.valueError
            · cases hd : p.default <;> simp [hve, hd]
            · simp [hve]
      · simp only [resolveOne, hann, if_neg hk, defaultOrMissing]
        cases p.default <;> simp

theorem resolveParams_ne_fuelOut
    {rec : TypeId → RState → Res (Value × RState)} {cls : TypeId} :
    ∀ ps : List Param,
      (∀ p ∈ ps, ∀ a, p.annotation = some a →
        p.kind = ParamKind.positionalOrKeyword →
        ∀ st, rec a st ≠ .fuelOut) →
      ∀ st, resolveParams rec cls ps st ≠ .fuelOut := by
  intro ps
  induction ps with
  | nil => intro _ st; simp [resolveParams]
  | cons p ps ih =>
      intro h st
      by_cases hself : p.name = "self"
      · rw [resolveParams, if_pos hself]
        exact ih (fun q hq => h q (List.mem_cons_of_mem _ hq)) st
      · rw [resolveParams, if_neg hself]
        have h1 : resolveOne rec cls p st ≠ .fuelOut :=
          resolveOne_ne_fuelOut
            (fun a ha hk => h p (List.mem_cons_self _ _) a ha hk st)
        cases ho : resolveOne rec cls p st with
        | fuelOut => exact absurd ho h1
        | err e => simp
        | ok x =>
            obtain ⟨v, st1⟩ := x
            have h2 := ih (fun q hq => h q (List.mem_cons_of_mem _ hq)) st1
            cases hps : resolveParams rec cls ps st1 with
            | fuelOut => exact absurd hps h2
            | err e => simp [hps]
            | ok y => simp [hps]

theorem resolve_ne_fuelOut_of_rank (env : PyEnv) (regs : Registrations)
    (rank : TypeId → Nat)
    (hrank : ∀ t p, p ∈ (env.classes ((regs.lookup t).getD t)).params →
      ∀ a, p.annotation = some a →
      p.kind = ParamKind.positionalOrKeyword → rank a < rank t) :
    ∀ (k : Nat) (t : TypeId) (st : RState), rank t < k →
      resolve env regs (rank t + 1) t st ≠ .fuelOut := by
  intro k
  induction k with
  | zero => intro t st h; omega
  | succ k ih =>
      intro t st hk
      simp only [resolve]
      by_cases hab :
          (env.classes ((regs.lookup t).getD t)).isAbstract = true
      · rw [if_pos hab]; simp
      · rw [if_neg hab]
        have hps : resolveParams (resolve env regs (rank t))
            ((regs.lookup t).getD t)
            (env.classes ((regs.lookup t).getD t)).params st ≠ .fuelOut := by
          apply resolveParams_ne_fuelOut
          intro p hp a ha hkind st'
          have hlt : rank a < rank t := hrank t p hp a ha hkind
          have h1 : resolve env regs (rank a + 1) a st' ≠ .fuelOut :=
            ih a st' (by omega)
          have h2 :=
            resolve_mono env regs (rank a + 1) (rank t) a st' (by omega) h1
          rw [h2]; exact h1
        cases hps2 : resolveParams (resolve env regs (rank t))
            ((regs.lookup t).getD t)
            (env.classes ((regs.lookup t).getD t)).params st with
        | fuelOut => exact absurd hps2 hps
        | err e => simp
        | ok x =>
            obtain ⟨deps, st1⟩ := x
            cases hi : (env.classes ((regs.lookup t).getD t)).init deps <;>
              simp [hi]

/-- Every non-`self` parameter of a successfully resolved parameter list
was itself handled successfully at some intermediate state. -/
theorem resolveParams_ok_mem
    {rec : TypeId → RState → Res (Value × RState)} {cls : TypeId} :
    ∀ (ps : List Param) (st : RState) (deps : List (String × Value))
      (st' : RState),
      resolveParams rec cls ps st = .ok (deps, st') →
      ∀ p ∈ ps, p.name ≠ "self" →
      ∃ st0 v st1, resolveOne rec cls p st0 = .ok (v, st1) := by
  intro ps
  induction ps with
  | nil => intro st deps st' h p hp; simp at hp
  | cons q ps ih =>
      intro st deps st' h p hp hns
      by_cases hself : q.name = "self"
      · rw [resolveParams, if_pos hself] at h
        rcases List.mem_cons.mp hp with rfl | hp'
        · exact absurd hself hns
        · exact ih st deps st' h p hp' hns
      · rw [resolveParams, if_neg hself] at h
        cases ho : resolveOne rec cls q st with
        | fuelOut => simp [ho] at h
        | err e => simp [ho] at h
        | ok x =>
            obtain ⟨v, st1⟩ := x
            rcases List.mem_cons.mp hp with rfl | hp'
            · exact ⟨st, v, st1, ho⟩
            · cases hps : resolveParams rec cls ps st1 with
              | fuelOut => simp [ho, hps] at h
              | err e => simp [ho, hps] at h
              | ok y =>
                  obtain ⟨deps2, st2⟩ := y
                  exact ih st1 deps2 st2 hps p hp' hns

/-- Claim C5 (confirmed).  Unresolved contract: for every abstract type
with no entry in the registration map, `resolve` fails with the
unresolved-contract `ValueError` (returning before any instantiation is
attempted), for every positive fuel, state and environment. -/
theorem C5_unresolved_contract (env : PyEnv) (regs : Registrations)
    (t : TypeId) (hreg : regs.lookup t = none)
    (habs : (env.classes t).isAbstract = true) (fuel : Nat) (st : RState) :
    resolve env regs (fuel + 1) t st =
      .err ⟨.valueError,
        "No concrete implementation registered for abstraction: " ++ t⟩ := by
  simp [resolve, hreg, habs]

/-- Witness for C5: resolving `ITaskRepository` on a fresh container fails
with the unresolved-contract error. -/
theorem C5_unresolved_contract_witness :
    resolve taskEnv [] 1 "ITaskRepository" ⟨0, []⟩ =
      .err ⟨.valueError,
        "No concrete implementation registered for abstraction: " ++
          "ITaskRepository"⟩ :=
  C5_unresolved_contract taskEnv [] "ITaskRepository" rfl rfl 0 ⟨0, []⟩

/-- Claim C6 (confirmed).  Fresh instances, no caching: two consecutive
calls to `resolve` on the same contract (the second starting from the state
the first produced) return objects of the mapped concrete class with
distinct identities; moreover every identity the first call could assign
lies strictly below every identity available to the second call, so no
instance (root or recursively-resolved dependency) is ever shared between
the two calls — the container performs no memoization. -/
theorem C6_fresh_instances (env : PyEnv) (regs : Registrations)
    (n1 n2 : Nat) (t : TypeId) (st0 st1 st2 : RState) (v1 v2 : Value)
    (h1 : resolve env regs n1 t st0 = .ok (v1, st1))
    (h2 : resolve env regs n2 t st1 = .ok (v2, st2)) :
    ∃ i1 f1 i2 f2,
      v1 = .vobj ((regs.lookup t).getD t) i1 f1 ∧
      v2 = .vobj ((regs.lookup t).getD t) i2 f2 ∧
      i1 ≠ i2 ∧
      st0.ctr ≤ i1 ∧ i1 < st1.ctr ∧ st1.ctr ≤ i2 ∧ i2 < st2.ctr := by
  obtain ⟨i1, f1, hv1, hc1, hle1⟩ := resolve_ok_shape env regs h1
  obtain ⟨i2, f2, hv2, hc2, hle2⟩ := resolve_ok_shape env regs h2
  exact ⟨i1, f1, i2, f2, hv1, hv2, by omega, hle1, by omega, by omega,
    by omega⟩

/-- Witness for C6: resolving `ITaskRepository` twice in the wired
container yields `CsvTaskRepository` instances with identities 0 and 1. -/
theorem C6_fresh_instances_witness :
    ∃ i1 f1 i2 f2,
      (Value.vobj "CsvTaskRepository" 0
          [("file_path", Value.vstr defaultCsvPath)]) =
        .vobj ((taskRegs.lookup "ITaskRepository").getD "ITaskRepository")
          i1 f1 ∧
      (Value.vobj "CsvTaskRepository" 1
          [("file_path", Value.vstr defaultCsvPath)]) =
        .vobj ((taskRegs.lookup "ITaskRepository").getD "ITaskRepository")
          i2 f2 ∧
      i1 ≠ i2 ∧
      (RState.mk 0 []).ctr ≤ i1 ∧
      i1 < (RState.mk 1 [warnMsg "file_path" "CsvTaskRepository"]).ctr ∧
      (RState.mk 1 [warnMsg "file_path" "CsvTaskRepository"]).ctr ≤ i2 ∧
      i2 < (RState.mk 2 [warnMsg "file_path" "CsvTaskRepository",
        warnMsg "file_path" "CsvTaskRepository"]).ctr :=
  C6_fresh_instances taskEnv taskRegs 2 2 "ITaskRepository"
    ⟨0, []⟩ ⟨1, [warnMsg "file_path" "CsvTaskRepository"]⟩
    ⟨2, [warnMsg "file_path" "CsvTaskRepository",
      warnMsg "file_path" "CsvTaskRepository"]⟩
    (.vobj "CsvTaskRepository" 0 [("file_path", .vstr defaultCsvPath)])
    (.vobj "CsvTaskRepository" 1 [("file_path", .vstr defaultCsvPath)])
    rfl rfl

/-- Claim C7 (confirmed).  Last-write-wins registration: after registering
an implementation for a contract twice, the registration map answers with
the second implementation, and every successful `resolve` of the contract
returns an instance of the second implementation — never of the first (when
the two differ). -/
theorem C7_last_write_wins (env : PyEnv) (regs r1 r2 : Registrations)
    (C : TypeId) (L1 L2 : String) (T1 T2 : TypeId)
    (hL1 : env.load L1 = some T1) (hL2 : env.load L2 = some T2)
    (h1 : register env regs C L1 = .ok r1)
    (h2 : register env r1 C L2 = .ok r2) :
    r2.lookup C = some T2 ∧
    ∀ (n : Nat) (st : RState) (v : Value) (st' : RState),
      resolve env r2 n C st = .ok (v, st') →
      (∃ i f, v = .vobj T2 i f) ∧
      (T1 ≠ T2 → ∀ i f, v ≠ .vobj T1 i f) := by
  simp only [register, hL2] at h2
  by_cases hs2 : env.sub T2 C = true
  · rw [if_pos hs2] at h2
    obtain rfl : r2 = (C, T2) :: r1 := by
      simpa using h2.symm
    have hlook : (((C, T2) :: r1) : Registrations).lookup C = some T2 := by
      simp [List.lookup]
    refine ⟨hlook, ?_⟩
    intro n st v st' hres
    obtain ⟨oid, fields, hv, -, -⟩ := resolve_ok_shape env _ hres
    rw [hlook] at hv
    simp only [Option.getD_some] at hv
    refine ⟨⟨oid, fields, hv⟩, ?_⟩
    intro hne i f heq
    rw [hv] at heq
    have : T2 = T1 := by
      cases heq; rfl
    exact hne this.symm
  · rw [if_neg hs2] at h2
    exact absurd h2 (by simp)

/-- Witness for C7: registering `Impl1` then `Impl2` for `IRepo` leaves
`Impl2` in the map, and resolving `IRepo` yields an `Impl2` instance. -/
theorem C7_last_write_wins_witness :
    ([("IRepo", "Impl2"), ("IRepo", "Impl1")] :
        Registrations).lookup "IRepo" = some "Impl2" ∧
    (∃ i f, (Value.vobj "Impl2" 0 ([] : List (String × Value))) =
      Value.vobj "Impl2" i f) := by
  have h := C7_last_write_wins twoImplEnv [] [("IRepo", "Impl1")]
    [("IRepo", "Impl2"), ("IRepo", "Impl1")] "IRepo" "m.Impl1" "m.Impl2"
    "Impl1" "Impl2" rfl rfl rfl rfl
  exact ⟨h.1, (h.2 1 ⟨0, []⟩ (.vobj "Impl2" 0 []) ⟨1, []⟩ rfl).1⟩

/-- Claim C4 (confirmed).  Failed-recursive-resolution policy, stated at
the per-parameter step of `resolve`'s constructor loop: when the recursive
resolution of an annotated positional-or-keyword parameter fails (a
resolution failure is a `ValueError`, the class of every error the
container itself raises), then (i) with a declared default the value falls
back to the default and the warning diagnostic is logged, (ii) without a
default the step fails with an error naming both the parameter and the
class being constructed, and (iii) with a default the enclosing parameter
loop simply continues with the fallback bound. -/
theorem C4_failed_resolution_policy
    (rec : TypeId → RState → Res (Value × RState)) (cls : TypeId)
    (p : Param) (ps : List Param) (st : RState) (a : TypeId) (e : PyErr)
    (hk : p.kind = ParamKind.positionalOrKeyword)
    (ha : p.annotation = some a)
    (hrec : rec a st = .err e) (hve : e.cls = ErrClass.valueError) :
    (∀ d, p.default = some d →
      resolveOne rec cls p st =
        .ok (d, ⟨st.ctr, st.warnings ++ [warnMsg p.name cls]⟩)) ∧
    (p.default = none →
      resolveOne rec cls p st =
        .err ⟨.valueError,
          "Cannot resolve dependency " ++ p.name ++ " for " ++ cls ++
            ": " ++ e.msg⟩) ∧
    (∀ d, p.default = some d → p.name ≠ "self" →
      resolveParams rec cls (p :: ps) st =
        match resolveParams rec cls ps
            ⟨st.ctr, st.warnings ++ [warnMsg p.name cls]⟩ with
        | .ok (deps, st2) => .ok ((p.name, d) :: deps, st2)
        | .err e2 => .err e2
        | .fuelOut => .fuelOut) := by
  refine ⟨?_, ?_, ?_⟩
  · intro d hd
    simp [resolveOne, ha, hk, hrec, hve, hd]
  · intro hd
    simp [resolveOne, ha, hk, hrec, hve, hd]
  · intro d hd hns
    have hone : resolveOne rec cls p st =
        .ok (d, ⟨st.ctr, st.warnings ++ [warnMsg p.name cls]⟩) := by
      simp [resolveOne, ha, hk, hrec, hve, hd]
    rw [resolveParams, if_neg hns, hone]
    cases hps : resolveParams rec cls ps
        ⟨st.ctr, st.warnings ++ [warnMsg p.name cls]⟩ with
    | fuelOut => simp [hps]
    | err e2 => simp [hps]
    | ok y => obtain ⟨deps, st2⟩ := y; simp [hps]

/-- Witness for C4: in the wired container, resolving the `str` annotation
of `CsvTaskRepository.__init__`'s `file_path` fails with a `ValueError`, so
the parameter falls back to its default `None` and the warning is logged;
the `dep` parameter of `HostNoDefault` has no default, so the `ValueError`
raised while resolving `Boom` is rewrapped naming `dep` and
`HostNoDefault`. -/
theorem C4_failed_resolution_policy_witness :
    resolveOne (resolve taskEnv taskRegs 1) "CsvTaskRepository"
        ⟨"file_path", .positionalOrKeyword, some "str", some .vnone⟩
        ⟨0, []⟩ =
      .ok (.vnone, ⟨0, [warnMsg "file_path" "CsvTaskRepository"]⟩) ∧
    resolveOne (resolve boomEnv [] 1) "HostNoDefault"
        ⟨"dep", .positionalOrKeyword, some "Boom", none⟩ ⟨0, []⟩ =
      .err ⟨.valueError,
        "Cannot resolve dependency " ++ "dep" ++ " for " ++
          "HostNoDefault" ++ ": " ++ "boom from constructor"⟩ :=
  ⟨(C4_failed_resolution_policy (resolve taskEnv taskRegs 1)
      "CsvTaskRepository"
      ⟨"file_path", .positionalOrKeyword, some "str", some .vnone⟩ []
      ⟨0, []⟩ "str"
      ⟨.valueError,
        "Cannot resolve dependency " ++ "args" ++ " for " ++ "str" ++
          ": Missing type hint or default value."⟩
      rfl rfl rfl rfl).1 .vnone rfl,
    ((C4_failed_resolution_policy (resolve boomEnv [] 1) "HostNoDefault"
      ⟨"dep", .positionalOrKeyword, some "Boom", none⟩ []
      ⟨0, []⟩ "Boom" ⟨.valueError, "boom from constructor"⟩
      rfl rfl rfl rfl).2).1 rfl⟩

/-- Claim C10 (confirmed).  Only positional-or-keyword parameters are
injected: for a parameter of any other kind the parameter step never
consults the recursive resolver (its outcome is independent of it), uses
the declared default when one exists, and otherwise fails with the
missing-type-hint-or-default error; consequently `resolve` of a class with
such a default-less parameter never succeeds. -/
theorem C10_injection_kinds (p : Param)
    (hk : p.kind ≠ ParamKind.positionalOrKeyword) :
    (∀ rec rec2 cls st, resolveOne rec cls p st = resolveOne rec2 cls p st) ∧
    (∀ rec cls st d, p.default = some d →
      resolveOne rec cls p st = .ok (d, st)) ∧
    (∀ rec cls st, p.default = none →
      resolveOne rec cls p st =
        .err ⟨.valueError,
          "Cannot resolve dependency " ++ p.name ++ " for " ++ cls ++
            ": Missing type hint or default value."⟩) ∧
    (∀ (env : PyEnv) (regs : Registrations) (fuel : Nat) (t : TypeId)
      (st : RState) (v : Value) (st2 : RState),
      p ∈ (env.classes ((regs.lookup t).getD t)).params → p.name ≠ "self" →
      p.default = none → resolve env regs fuel t st ≠ .ok (v, st2)) := by
  have hone : ∀ rec cls st,
      resolveOne rec cls p st = defaultOrMissing cls p st := by
    intro rec cls st
    cases hann : p.annotation with
    | none => simp [resolveOne, hann]
    | some a => simp [resolveOne, hann, hk]
  refine ⟨?_, ?_, ?_, ?_⟩
  · intro rec rec2 cls st; rw [hone, hone]
  · intro rec cls st d hd; rw [hone]; simp [defaultOrMissing, hd]
  · intro rec cls st hd; rw [hone]; simp [defaultOrMissing, hd]
  · intro env regs fuel t st v st2 hp hns hd hres
    cases fuel with
    | zero => simp [resolve] at hres
    | succ n =>
        simp only [resolve] at hres
        by_cases hab :
            (env.classes ((regs.lookup t).getD t)).isAbstract = true
        · rw [if_pos hab] at hres; simp at hres
        · rw [if_neg hab] at hres
          cases hps : resolveParams (resolve env regs n)
              ((regs.lookup t).getD t)
              (env.classes ((regs.lookup t).getD t)).params st with
          | fuelOut => simp [hps] at hres
          | err e => simp [hps] at hres
          | ok x =>
              obtain ⟨deps, st1⟩ := x
              obtain ⟨st0, w, stw, hone2⟩ :=
                resolveParams_ok_mem _ st deps st1 hps p hp hns
              rw [hone] at hone2
              simp [defaultOrMissing, hd] at hone2

/-- Witness for C10: a keyword-only parameter with an annotation and a
default is never recursively resolved — its default is bound unchanged —
and a keyword-only parameter without a default makes resolution fail. -/
theorem C10_injection_kinds_witness :
    resolveOne (resolve chainEnv [] 1) "K"
        ⟨"dep", .keywordOnly, some "B", some (.vstr "x")⟩ ⟨0, []⟩ =
      .ok (.vstr "x", ⟨0, []⟩) ∧
    resolveOne (resolve chainEnv [] 1) "K"
        ⟨"dep", .keywordOnly, some "B", none⟩ ⟨0, []⟩ =
      .err ⟨.valueError,
        "Cannot resolve dependency " ++ "dep" ++ " for " ++ "K" ++
          ": Missing type hint or default value."⟩ :=
  ⟨(C10_injection_kinds
      ⟨"dep", .keywordOnly, some "B", some (.vstr "x")⟩
      (by decide)).2.1 (resolve chainEnv [] 1) "K" ⟨0, []⟩ (.vstr "x") rfl,
    ((C10_injection_kinds ⟨"dep", .keywordOnly, some "B", none⟩
      (by decide)).2.2).1 (resolve chainEnv [] 1) "K" ⟨0, []⟩ rfl⟩

/-- Claim C2, counterexample.  `register` does not verify that the loaded
type implements every operation the contract declares: `Bad` subclasses
`IFoo` without implementing its declared operation `m` (in Python,
`class Bad(IFoo): pass`, which leaves `Bad` abstract), yet
`register(IFoo, "mod.Bad")` succeeds and stores the mapping — the
registered contract now maps to a type that does not structurally satisfy
it, and nothing failed at registration time. -/
theorem C2_counterexample :
    register badEnv [] "IFoo" "mod.Bad" = .ok [("IFoo", "Bad")] ∧
    structurallySatisfies badEnv "Bad" "IFoo" = false ∧
    (badEnv.classes "Bad").isAbstract = true ∧
    ([("IFoo", "Bad")] : Registrations).lookup "IFoo" = some "Bad" :=
  ⟨rfl, rfl, rfl, rfl⟩

/-- Claim C2 as amended.  `register` verifies nominal subclassing, not
structural satisfaction: when the locator loads to a type `T` with
`issubclass(T, C)`, registration succeeds and stores the mapping (even if
`T` leaves declared operations unimplemented); an unloadable locator or a
non-subclass fails at registration time with a `ValueError`. -/
theorem C2_register_subclass_check (env : PyEnv) (regs : Registrations)
    (C : TypeId) (L : String) :
    (∀ T, env.load L = some T → env.sub T C = true →
      register env regs C L = .ok ((C, T) :: regs) ∧
      (((C, T) :: regs : Registrations).lookup C = some T)) ∧
    (env.load L = none →
      ∃ e, register env regs C L = .error e ∧
        e.cls = ErrClass.valueError) ∧
    (∀ T, env.load L = some T → env.sub T C = false →
      ∃ e, register env regs C L = .error e ∧
        e.cls = ErrClass.valueError) := by
  refine ⟨?_, ?_, ?_⟩
  · intro T hT hs
    constructor
    · simp [register, hT, hs]
    · simp [List.lookup]
  · intro hL
    refine ⟨⟨.valueError,
      "Failed to load concrete implementation " ++ L ++
        ". Please check the path."⟩, ?_, rfl⟩
    simp [register, hL]
  · intro T hT hs
    refine ⟨⟨.valueError,
      "Concrete implementation " ++ T ++
        " does not implement abstraction " ++ C ++ "."⟩, ?_, rfl⟩
    simp [register, hT, hs]

/-- Witness for the amended C2: the TaskBuddy wiring registers
successfully, and registering the non-subclass `Free` for `IRepo` fails
with a `ValueError` at registration time. -/
theorem C2_register_subclass_check_witness :
    (register taskEnv [] "ITaskRepository"
        "data.csv_task_repository.CsvTaskRepository" = .ok taskRegs ∧
      (taskRegs : Registrations).lookup "ITaskRepository" =
        some "CsvTaskRepository") ∧
    (∃ e, register twoImplEnv [] "IRepo" "m.Free" = .error e ∧
      e.cls = ErrClass.valueError) :=
  ⟨(C2_register_subclass_check taskEnv [] "ITaskRepository"
      "data.csv_task_repository.CsvTaskRepository").1
      "CsvTaskRepository" rfl rfl,
    ((C2_register_subclass_check twoImplEnv [] "IRepo" "m.Free").2.2)
      "Free" rfl rfl⟩

/-- Claim C3, counterexample.  A `ValueError` raised by a dependency's
constructor body does not pass through unchanged: `Boom`'s constructor
raises `ValueError("boom from constructor")`; resolving `Host`, whose
`dep : Boom` parameter has a default, swallows that constructor error and
substitutes the default (logging the optional-dependency warning); and
resolving `HostNoDefault`, whose `dep : Boom` parameter has no default,
rewraps the constructor error instead of propagating it unchanged. -/
theorem C3_counterexample :
    resolve boomEnv [] 2 "Boom" ⟨0, []⟩ =
      .err ⟨.valueError, "boom from constructor"⟩ ∧
    resolve boomEnv [] 2 "Host" ⟨0, []⟩ =
      .ok (.vobj "Host" 0 [("dep", .vstr "fallback")],
        ⟨1, [warnMsg "dep" "Host"]⟩) ∧
    resolve boomEnv [] 2 "HostNoDefault" ⟨0, []⟩ =
      .err ⟨.valueError,
        "Cannot resolve dependency " ++ "dep" ++ " for " ++
          "HostNoDefault" ++ ": " ++ "boom from constructor"⟩ :=
  ⟨rfl, rfl, rfl⟩

/-- Claim C3 as amended.  Construction failures pass through with one
exception: an error raised by the top-level target's constructor
propagates unchanged, and an error raised by a recursively-resolved
dependency's constructor propagates unchanged when its class is not
`ValueError`; a `ValueError` raised by a dependency's constructor is
indistinguishable from a resolution failure and is caught by the
container — replaced by the parameter's declared default when one exists,
or rewrapped naming the parameter and the constructed type when not. -/
theorem C3_construction_failure_propagation
    (env : PyEnv) (regs : Registrations) (fuel : Nat) (t : TypeId)
    (st : RState) (deps : List (String × Value)) (st1 : RState)
    (e : PyErr) :
    ((env.classes ((regs.lookup t).getD t)).isAbstract = false →
      resolveParams (resolve env regs fuel) ((regs.lookup t).getD t)
        (env.classes ((regs.lookup t).getD t)).params st =
          .ok (deps, st1) →
      (env.classes ((regs.lookup t).getD t)).init deps = .error e →
      resolve env regs (fuel + 1) t st = .err e) ∧
    (∀ rec cls p a, p.kind = ParamKind.positionalOrKeyword →
      p.annotation = some a → rec a st = .err e →
      e.cls ≠ ErrClass.valueError → resolveOne rec cls p st = .err e) := by
  constructor
  · intro hab hps hinit
    simp [resolve, hab, hps, hinit]
  · intro rec cls p a hk ha hrec hve
    simp [resolveOne, ha, hk, hrec, hve]

/-- Witness for the amended C3: `Boom`'s own constructor error surfaces
unchanged when `Boom` is the top-level target, and a non-`ValueError`
(here a `TypeError`) raised while resolving a dependency passes through the
parameter step unchanged even though the parameter has a default. -/
theorem C3_construction_failure_propagation_witness :
    resolve boomEnv [] 1 "Boom" ⟨0, []⟩ =
      .err ⟨.valueError, "boom from constructor"⟩ ∧
    resolveOne (fun _ _ => .err ⟨.typeError, "db down"⟩) "Host"
        ⟨"dep", .positionalOrKeyword, some "Boom", some (.vstr "fallback")⟩
        ⟨0, []⟩ =
      .err ⟨.typeError, "db down"⟩ :=
  ⟨(C3_construction_failure_propagation boomEnv [] 0 "Boom" ⟨0, []⟩ []
      ⟨0, []⟩ ⟨.valueError, "boom from constructor"⟩).1 rfl rfl rfl,
    (C3_construction_failure_propagation boomEnv [] 0 "unused" ⟨0, []⟩ []
      ⟨0, []⟩ ⟨.typeError, "db down"⟩).2
      (fun _ _ => .err ⟨.typeError, "db down"⟩) "Host"
      ⟨"dep", .positionalOrKeyword, some "Boom", some (.vstr "fallback")⟩
      "Boom" rfl rfl rfl (by decide)⟩

/-- Claim C8 (confirmed).  Termination under acyclicity: whenever the
dependency graph induced by following annotated positional-or-keyword
constructor parameters through the registration map is acyclic — witnessed
by a rank that strictly decreases along every dependency edge — resolution
completes: with fuel `rank t + 1` the outcome is not fuel exhaustion, and
all larger fuel gives the same outcome.  Conversely, on the cyclic graph of
`loopEnv` (`Loop.__init__` requires a `Loop`) the recursion is unbounded:
every fuel amount is exhausted, i.e. no recursion depth suffices. -/
theorem C8_termination :
    (∀ (env : PyEnv) (regs : Registrations) (rank : TypeId → Nat),
      (∀ t p, p ∈ (env.classes ((regs.lookup t).getD t)).params →
        ∀ a, p.annotation = some a →
        p.kind = ParamKind.positionalOrKeyword → rank a < rank t) →
      ∀ t st, resolve env regs (rank t + 1) t st ≠ .fuelOut ∧
        ∀ n, rank t + 1 ≤ n →
          resolve env regs n t st = resolve env regs (rank t + 1) t st) ∧
    (∀ (n : Nat) (st : RState),
      resolve loopEnv [] n "Loop" st = .fuelOut) := by
  constructor
  · intro env regs rank hrank t st
    have h1 := resolve_ne_fuelOut_of_rank env regs rank hrank
      (rank t + 1) t st (by omega)
    exact ⟨h1, fun n hn => resolve_mono env regs (rank t + 1) n t st hn h1⟩
  · intro n
    induction n with
    | zero => intro st; rfl
    | succ n ih =>
        intro st
        have hx : resolveParams (resolve loopEnv [] n) "Loop"
            (loopEnv.classes "Loop").params st = .fuelOut := by
          have hp : (loopEnv.classes "Loop").params =
              [selfParam,
                ⟨"x", .positionalOrKeyword, some "Loop", none⟩] := rfl
          rw [hp, resolveParams,
            if_pos (show selfParam.name = "self" from rfl), resolveParams,
            if_neg (show ¬(Param.mk "x" ParamKind.positionalOrKeyword
              (some "Loop") none).name = "self" by decide)]
          have ho : resolveOne (resolve loopEnv [] n) "Loop"
              ⟨"x", .positionalOrKeyword, some "Loop", none⟩ st =
                .fuelOut := by
            simp [resolveOne, ih st]
          rw [ho]
        have hl : ((([] : Registrations).lookup "Loop").getD "Loop") =
            "Loop" := rfl
        simp only [resolve, hl]
        rw [if_neg (show ¬(loopEnv.classes "Loop").isAbstract = true
          by decide), hx]

/-- Witness for C8: the acyclic chain `A → B` resolves without exhausting
fuel at rank-bounded depth, and larger fuel agrees. -/
theorem C8_termination_witness :
    resolve chainEnv [] (chainRank "A" + 1) "A" ⟨0, []⟩ ≠ .fuelOut ∧
    resolve chainEnv [] 9 "A" ⟨0, []⟩ =
      resolve chainEnv [] (chainRank "A" + 1) "A" ⟨0, []⟩ := by
  have hrank : ∀ t p,
      p ∈ (chainEnv.classes ((([] : Registrations).lookup t).getD t)).params →
      ∀ a, p.annotation = some a →
      p.kind = ParamKind.positionalOrKeyword →
      chainRank a < chainRank t := by
    intro t p hp a ha hk
    simp only [List.lookup_nil, Option.getD_none] at hp
    by_cases hA : t = "A"
    · subst hA
      have hp2 : p ∈ [selfParam,
          (⟨"b", .positionalOrKeyword, some "B", none⟩ : Param)] := hp
      simp only [List.mem_cons, List.not_mem_nil, or_false] at hp2
      rcases hp2 with rfl | rfl
      · exact Option.noConfusion ha
      · obtain rfl : "B" = a := Option.some.inj ha
        decide
    · by_cases hB : t = "B"
      · subst hB
        have hp2 : p ∈ [selfParam] := hp
        simp only [List.mem_cons, List.not_mem_nil, or_false] at hp2
        subst hp2
        exact Option.noConfusion ha
      · simp only [chainEnv, chainClasses, if_neg hA, if_neg hB] at hp
        have hp2 : p ∈ objectInitParams := hp
        simp only [objectInitParams, List.mem_cons, List.not_mem_nil,
          or_false] at hp2
        rcases hp2 with rfl | rfl | rfl <;> exact Option.noConfusion ha
  have h := C8_termination.1 chainEnv [] chainRank hrank "A" ⟨0, []⟩
  exact ⟨h.1, h.2 9 (by decide)⟩

/-- Claim C9 (confirmed).  Read-only backend: `CsvTaskRepository`
implements exactly the five operations the storage contract declares
(structural conformance holds); `add_task`, `update_task` and
`delete_task` raise `NotImplementedError` on every input; and the two read
operations are implemented — no input makes `get_all_tasks` or
`get_task_by_id` signal a not-supported error (their only failures are
`FileNotFoundError` for a missing file and `ValueError` for an unknown
identifier). -/
theorem C9_read_only_backend :
    ((taskEnv.classes "CsvTaskRepository").methods = repositoryOps ∧
      (taskEnv.classes "ITaskRepository").declaredOps = repositoryOps ∧
      structurallySatisfies taskEnv "CsvTaskRepository"
        "ITaskRepository" = true) ∧
    (∀ t : Task, CsvTaskRepository.add_task t =
      .error ⟨.notImplementedError,
        "add_task is not implemented for CsvTaskRepository yet."⟩) ∧
    (∀ t : Task, CsvTaskRepository.update_task t =
      .error ⟨.notImplementedError,
        "update_task is not implemented for CsvTaskRepository yet."⟩) ∧
    (∀ tid : String, CsvTaskRepository.delete_task tid =
      .error ⟨.notImplementedError,
        "delete_task is not implemented for CsvTaskRepository yet."⟩) ∧
    (∀ (path : String) (file : CsvFile) (e : PyErr),
      CsvTaskRepository.get_all_tasks path file = .error e →
      e.cls ≠ ErrClass.notImplementedError) ∧
    (∀ (path : String) (file : CsvFile) (tid : String) (e : PyErr),
      CsvTaskRepository.get_task_by_id path file tid = .error e →
      e.cls ≠ ErrClass.notImplementedError) := by
  have hget : ∀ (path : String) (file : CsvFile) (e : PyErr),
      CsvTaskRepository.get_all_tasks path file = .error e →
      e.cls ≠ ErrClass.notImplementedError := by
    intro path file e h
    cases file with
    | missing =>
        simp only [CsvTaskRepository.get_all_tasks] at h
        obtain rfl :
            (⟨ErrClass.fileNotFoundError,
              "CSV file not found at: " ++ path⟩ : PyErr) = e :=
          Except.error.inj h
        simp
    | blankFirstLine =>
        simp [CsvTaskRepository.get_all_tasks] at h
    | table fns rows =>
        simp only [CsvTaskRepository.get_all_tasks] at h
        split_ifs at h <;> simp at h
  refine ⟨⟨rfl, rfl, rfl⟩, fun t => rfl, fun t => rfl, fun tid => rfl,
    hget, ?_⟩
  intro path file tid e h
  rw [CsvTaskRepository.get_task_by_id] at h
  cases hg : CsvTaskRepository.get_all_tasks path file with
  | error e2 =>
      simp only [hg] at h
      exact Except.error.inj h ▸ hget path file e2 hg
  | ok tasks =>
      simp only [hg] at h
      cases hf : tasks.find? (fun t => t.id == tid) with
      | some t => simp [hf] at h
      | none =>
          simp only [hf] at h
          obtain rfl :
              (⟨ErrClass.valueError,
                "Task with ID " ++ tid ++ " not found."⟩ : PyErr) = e :=
            Except.error.inj h
          simp

/-- Witness for C9: adding a task signals not-supported, while a missing
file makes `get_all_tasks` fail with `FileNotFoundError`, which is not a
not-supported error. -/
theorem C9_read_only_backend_witness :
    CsvTaskRepository.add_task ⟨"x", "title", .pending⟩ =
      .error ⟨.notImplementedError,
        "add_task is not implemented for CsvTaskRepository yet."⟩ ∧
    (⟨ErrClass.fileNotFoundError,
        "CSV file not found at: " ++ "p"⟩ : PyErr).cls ≠
      ErrClass.notImplementedError :=
  ⟨C9_read_only_backend.2.1 ⟨"x", "title", .pending⟩,
    C9_read_only_backend.2.2.2.2.1 "p" .missing
      ⟨.fileNotFoundError, "CSV file not found at: " ++ "p"⟩ rfl⟩

end TaskBuddy
